import Mathlib

/-!
Shallow embedding of the deterministic core of the helicopter game
(`src/main.rs`): fixed-point arithmetic (`Fxpt`, an `i16` scaled by 32),
the xorshift RNG, the obstacle model, and the physics step performed inside
`GameField::render` (input resolution and recording, scroll, wall/obstacle
spawn, cull, player physics, collision, frame counter).

Machine-integer conventions used throughout this file:
* `u64` values are `Nat` reduced `% 2 ^ 64` where Rust wraps (the RNG shifts);
* `i16` values are `Int`; the game's dynamic quantities (positions bounded by
  the 12800-wide field, speeds of a few hundred, heights below 9600) stay far
  inside the `i16` range during the simulation, so plain `Int` arithmetic
  coincides with the source's `i16` arithmetic there. The one place where the
  spec itself discusses 16-bit overflow - construction of an `Fxpt` from a raw
  integer - is modelled with an explicit two's-complement wrap (`wrap16`),
  matching the release-build semantics of the unchecked multiply in
  `impl From<i16> for Fxpt`;
* Rust `i16` operators map to `Int.tdiv` (`/`), `Int.tmod` (`%`) and
  `Int.fdiv _ 32` (arithmetic shift right by 5);
* the wall-clock gating of the physics step (60 Hz) and the purely visual
  state (`frames`, `objects`, colors, screen scaling) do not feed the physics
  state and are not part of the embedding; a step either runs or it does not,
  which `tick` exposes as an explicit `timeOk : Bool`.
-/

/-- Number of fractional bits of the fixed point representation (source:
`FIXED_POINT_SHIFT = 5`). -/
def FIXED_POINT_SHIFT : Nat := 5

/-- Fixed point divisor, `1 << FIXED_POINT_SHIFT = 32`. -/
def FIXED_POINT_DIVISOR : Int := 32

/-- Width of the internal game field, in scaled units (`400 * 32`). -/
def GAME_FIELD_WIDTH : Int := 400 * FIXED_POINT_DIVISOR

/-- Height of the internal game field, in scaled units (`300 * 32`). -/
def GAME_FIELD_HEIGHT : Int := 300 * FIXED_POINT_DIVISOR

/-- Player X coordinate, in scaled units (`100 * 32`). -/
def PLAYER_X : Int := 100 * FIXED_POINT_DIVISOR

/-- Side of the player's collision square, in scaled units (`48 * 32`). -/
def PLAYER_SIZE : Int := 48 * FIXED_POINT_DIVISOR

/-- Width of a wall or obstacle, in scaled units (`25 * 32`). -/
def OBSTACLE_WIDTH : Int := 25 * FIXED_POINT_DIVISOR

/-- Gravity constant: the source computes `(1.6 * 32 as f32) as i16`, and the
cast truncates `51.2` to `51`. -/
def GRAVITY : Int := 51

/-- Friction constant: the source computes `(0.9 * 32 as f32) as i16`, and the
cast truncates `28.8` to `28`. -/
def FRICTION : Int := 28

/-- Speed change on input, in scaled units (`2 * 32`). -/
def INPUT_IMPULSE : Int := 2 * FIXED_POINT_DIVISOR

/-- Two's-complement wrap of an integer into the `i16` range
`[-32768, 32767]`. -/
def wrap16 (x : Int) : Int := (x + 32768) % 65536 - 32768

/-- Construction of an `Fxpt` from a plain integer (source:
`impl From<i16> for Fxpt`, `Fxpt(val * FIXED_POINT_DIVISOR)`). The multiply is
unchecked in the source; in release builds an overflowing product wraps to 16
bits, which the explicit `wrap16` reproduces (debug builds would abort with an
arithmetic-overflow panic instead - under neither semantics does the
construction return a recoverable error). -/
def fxptFromI16 (v : Int) : Int := wrap16 (v * FIXED_POINT_DIVISOR)

/-- Modelled from the spec: the claimed overflow-checked construction, written
from the claim's words for comparison with `fxptFromI16` - it scales by the
divisor and fails (returns `none`) when the scaled value would overflow the
backing 16-bit width. The source has no such checked pathway. -/
def fxptFromI16Checked (v : Int) : Option Int :=
  if -32768 ≤ v * FIXED_POINT_DIVISOR ∧ v * FIXED_POINT_DIVISOR ≤ 32767 then
    some (v * FIXED_POINT_DIVISOR)
  else none

/-- Largest finite IEEE-754 binary32 value, `(2 - 2 ^ -23) * 2 ^ 127`, as an
exact rational. -/
def F32_MAX_FINITE : ℚ := (2 ^ 24 - 1) * 2 ^ 104

/-- Conversion of an `Fxpt` backing value to `f32` (source:
`impl From<Fxpt> for f32`): `val.0 as f32 / FIXED_POINT_DIVISOR as f32`,
returning the quotient when it is finite and panicking otherwise (the panic
branch is modelled as `none`). The model computes the quotient as an exact
rational: for `|v| ≤ 32768` the `i16 -> f32` cast is exact (integers of
magnitude below `2 ^ 24` are representable) and division by the power of two
`32` only shifts the exponent, well inside the normal range, so the `f32`
result equals the rational `v / 32` exactly and `is_finite` is the magnitude
test against the largest finite `f32`. -/
def fxptToF32 (v : Int) : Option ℚ :=
  let tmp : ℚ := (v : ℚ) / (FIXED_POINT_DIVISOR : ℚ)
  if |tmp| ≤ F32_MAX_FINITE then some tmp else none

/-- One advance of the xorshift RNG state (source: `Rng::rand`):
`s ^= s << 13; s ^= s >> 17; s ^= s << 43` on a `u64`. Shifts of a `u64` drop
the bits above position 63, hence the reductions `% 2 ^ 64`. `Rng::rand`
returns the pre-update state, so callers use the current state as the drawn
value and `rngNext` as the successor state. -/
def rngNext (s : Nat) : Nat :=
  let s1 := (s ^^^ (s <<< 13)) % 2 ^ 64
  let s2 := s1 ^^^ (s1 >>> 17)
  (s2 ^^^ (s2 <<< 43)) % 2 ^ 64

/-- Reinterpretation of the low 16 bits of a `u64` as an `i16` (Rust
`as i16`). -/
def toSigned16 (n : Nat) : Int := wrap16 ((n % 65536 : Nat) : Int)

/-- Rust `i16::clamp(lo, hi)`: below `lo` gives `lo`, above `hi` gives `hi`
(the source only calls it with `lo ≤ hi`, so the Rust precondition panic never
fires). -/
def clampI (x lo hi : Int) : Int := if x < lo then lo else if hi < x then hi else x

/-- Axis-aligned rectangle used for both walls and floating obstacles
(source: `struct Obstacle`), all fields in scaled `Fxpt` units. -/
structure Obstacle where
  x : Int
  y : Int
  width : Int
  height : Int
deriving DecidableEq

/-- Physics-relevant state of the game field (source: `struct GameField`).
Render-only fields of the source (`frames`, `last_frame`, `start_time`,
`objects`) carry no influence on the physics state and are omitted. Replay
bytes and recorded input bytes are `Nat` (ASCII codes; `'1' = 49`,
`'0' = 48`). -/
structure GameField where
  rng : Nat
  physics_frames : Nat
  player_y : Int
  player_speed : Int
  walls : List Obstacle
  obstacles : List Obstacle
  wall_skew : Int
  last_obstacle : Nat
  dead : Bool
  replay : Option (List Nat)
  inputs : List Nat
deriving DecidableEq

/-- Initial field (source: `GameField::new`): the RNG is seeded with the fixed
constant `0x1337133713371337`, never with wall-clock data. -/
def GameField.new : GameField :=
  { rng := 0x1337133713371337
    physics_frames := 0
    player_y := Int.tdiv GAME_FIELD_HEIGHT 2
    player_speed := 0
    walls := []
    obstacles := []
    wall_skew := 0
    last_obstacle := 0
    dead := false
    replay := none
    inputs := [] }

/-- Attachment of a replay queue to a freshly built field (source:
`field.replay = replay.clone()` in `game`). -/
def withReplay (r : Option (List Nat)) (g : GameField) : GameField :=
  { g with replay := r }

/-- Resolution of the per-step input bit (source: the condition
`(self.replay.is_none() && is_mouse_button_down(..)) ||
 self.replay.as_mut().and_then(|x| x.pop_front()) == Some(b'1')`).
With a replay attached the popped front byte decides (only the byte `'1'`
flies; an exhausted queue pops `None`); without one the live mouse signal
decides. -/
def resolvedFlying (g : GameField) (mouse : Bool) : Bool :=
  (g.replay.isNone && mouse) || ((g.replay.bind List.head?) == some 49)

/-- Input phase of the physics step: apply the upward impulse when flying,
record the resolved bit (`'1'` or `'0'`) into the input log, and advance the
replay cursor (when a replay is attached its front element is popped whether
or not it said to fly; popping an empty queue leaves it empty, which
`List.tail [] = []` reproduces). -/
def inputPhase (g : GameField) (mouse : Bool) : GameField :=
  if resolvedFlying g mouse then
    { g with player_speed := g.player_speed - INPUT_IMPULSE
             replay := g.replay.map List.tail
             inputs := g.inputs ++ [49] }
  else
    { g with replay := g.replay.map List.tail
             inputs := g.inputs ++ [48] }

/-- Scroll phase: every wall and obstacle moves left by `Fxpt::from(8)`
scaled units per physics step. -/
def scrollPhase (g : GameField) : GameField :=
  { g with walls := g.walls.map (fun o => { o with x := o.x - fxptFromI16 8 })
           obstacles := g.obstacles.map (fun o => { o with x := o.x - fxptFromI16 8 }) }

/-- X coordinate the spawn logic compares against: the rightmost (last
pushed) wall's X, or `GAME_FIELD_WIDTH - OBSTACLE_WIDTH` when no walls exist
(source: `self.walls.get(self.walls.len().wrapping_sub(1)).map(|x| x.x)
.unwrap_or(Fxpt(GAME_FIELD_WIDTH.0 - OBSTACLE_WIDTH.0))`). -/
def lastXOf (walls : List Obstacle) : Int :=
  ((walls.getLast?).map Obstacle.x).getD (GAME_FIELD_WIDTH - OBSTACLE_WIDTH)

/-- Modelled from the spec claim, for comparison with `lastXOf`: the claim
reads the no-walls sentinel as the right edge of the field
(`GAME_FIELD_WIDTH`) rather than the source's right edge minus the wall
thickness. -/
def lastXClaim (walls : List Obstacle) : Int :=
  ((walls.getLast?).map Obstacle.x).getD GAME_FIELD_WIDTH

/-- Vertical gap for a wall pair spawned at physics frame `pf` (source:
`gap_reduction = (self.physics_frames / 32).min(70) as i16;
gap = Fxpt::from(250 - gap_reduction)`). -/
def gapFor (pf : Nat) : Int :=
  fxptFromI16 (250 - ((min (pf / 32) 70 : Nat) : Int))

/-- Height of a wall before skew (source:
`wall_size = Fxpt((GAME_FIELD_HEIGHT.0 - gap.0) / 2)`). -/
def wallSizeFor (pf : Nat) : Int :=
  Int.tdiv (GAME_FIELD_HEIGHT - gapFor pf) 2

/-- Wall skew after the per-spawn pseudo-random nudge (source:
`(self.wall_skew.0 + self.rng.rand() as i16 % (FIXED_POINT_DIVISOR * 8))
.clamp(-wall_size.0, wall_size.0)`); the drawn value is the pre-update RNG
state. -/
def newWallSkew (g : GameField) : Int :=
  clampI (g.wall_skew + Int.tmod (toSigned16 g.rng) (FIXED_POINT_DIVISOR * 8))
    (-(wallSizeFor g.physics_frames)) (wallSizeFor g.physics_frames)

/-- Top wall of a newly spawned pair: spans from the field top down to the
gap's upper edge, at `last_x + OBSTACLE_WIDTH`. -/
def wallTopOf (g : GameField) : Obstacle :=
  { x := lastXOf g.walls + OBSTACLE_WIDTH
    y := 0
    width := OBSTACLE_WIDTH
    height := wallSizeFor g.physics_frames + newWallSkew g }

/-- Bottom wall of a newly spawned pair: spans from the gap's lower edge to
the field bottom, at `last_x + OBSTACLE_WIDTH`. -/
def wallBotOf (g : GameField) : Obstacle :=
  { x := lastXOf g.walls + OBSTACLE_WIDTH
    y := GAME_FIELD_HEIGHT - (wallSizeFor g.physics_frames - newWallSkew g)
    width := OBSTACLE_WIDTH
    height := wallSizeFor g.physics_frames - newWallSkew g }

/-- Vertical offset of a floating obstacle inside the gap (source:
`((self.rng.rand() as u16) % (gap.0 - Fxpt::from(60).0) as u16) as i16`).
This is the second `rand()` call of the spawn, so the drawn value is the
once-advanced state `rngNext g.rng`; the `as u16` casts are the `% 65536`
reductions and the final `as i16` is `wrap16` (the operand is below `2 ^ 15`,
so it is unchanged). The Rust `%` divisor `gap - 1920` is at least `3840`, so
the division-by-zero panic never fires. -/
def obstacleLocation (g : GameField) : Int :=
  wrap16 ((((rngNext g.rng) % 65536) %
    (((gapFor g.physics_frames - fxptFromI16 60) % 65536).toNat) : Nat) : Int)

/-- Floating obstacle spawned alongside a wall pair: same X as the pair, a
pseudo-random offset below the gap's upper edge, fixed height
`Fxpt::from(60)`. -/
def newObstacleOf (g : GameField) : Obstacle :=
  { x := lastXOf g.walls + OBSTACLE_WIDTH
    y := wallSizeFor g.physics_frames + newWallSkew g + obstacleLocation g
    width := OBSTACLE_WIDTH
    height := fxptFromI16 60 }

/-- Spawn phase of the physics step (source: the `// Create walls` block): a
wall pair is pushed when `last_x ≤ GAME_FIELD_WIDTH - OBSTACLE_WIDTH`; a
floating obstacle is additionally pushed when at least 30 physics frames have
passed since the last one, consuming a second RNG draw and updating
`last_obstacle`. The subtraction `physics_frames - last_obstacle` is the `u64`
subtraction of the source, on the invariant-maintained `last_obstacle ≤
physics_frames`. -/
def spawnPhase (g : GameField) : GameField :=
  if lastXOf g.walls ≤ GAME_FIELD_WIDTH - OBSTACLE_WIDTH then
    if 30 ≤ g.physics_frames - g.last_obstacle then
      { g with rng := rngNext (rngNext g.rng)
               wall_skew := newWallSkew g
               walls := g.walls ++ [wallTopOf g, wallBotOf g]
               obstacles := g.obstacles ++ [newObstacleOf g]
               last_obstacle := g.physics_frames }
    else
      { g with rng := rngNext g.rng
               wall_skew := newWallSkew g
               walls := g.walls ++ [wallTopOf g, wallBotOf g] }
  else g

/-- Cull phase: walls and obstacles are retained exactly when
`x + width > 0` (source: the two `retain` calls). -/
def cullPhase (g : GameField) : GameField :=
  { g with walls := g.walls.filter (fun o => decide (0 < o.x + o.width))
           obstacles := g.obstacles.filter (fun o => decide (0 < o.x + o.width)) }

/-- Player physics phase: add gravity to the speed, apply friction as an
arithmetic right shift by `FIXED_POINT_SHIFT` followed by multiplication with
the fixed-point `FRICTION` constant, integrate the speed into Y, and clamp Y
to `[0, GAME_FIELD_HEIGHT - PLAYER_SIZE]`. -/
def physPhase (g : GameField) : GameField :=
  { g with
    player_speed := Int.fdiv (g.player_speed + GRAVITY) (2 ^ FIXED_POINT_SHIFT) * FRICTION
    player_y := clampI
      (g.player_y + Int.fdiv (g.player_speed + GRAVITY) (2 ^ FIXED_POINT_SHIFT) * FRICTION)
      0 (GAME_FIELD_HEIGHT - PLAYER_SIZE) }

/-- Overlap test between one rectangle and the player square at vertical
position `py` (source: the body of the collision loop): strict
`max(a1,b1) < min(a2,b2)` on each axis. -/
def collides (o : Obstacle) (py : Int) : Bool :=
  decide (max o.x PLAYER_X < min (o.x + o.width) (PLAYER_X + PLAYER_SIZE)) &&
  decide (max o.y py < min (o.y + o.height) (py + PLAYER_SIZE))

/-- Collision phase: any overlapping obstacle or wall sets the `dead` flag
(the source loop only ever sets it to `true`, so the flag is the disjunction
of its prior value with the overlap tests over `obstacles` then `walls`). -/
def collidePhase (g : GameField) : GameField :=
  { g with dead := g.dead || (g.obstacles ++ g.walls).any (fun o => collides o g.player_y) }

/-- Frame-counter phase: `self.physics_frames += 1` at the end of the physics
step. -/
def advanceFrame (g : GameField) : GameField :=
  { g with physics_frames := g.physics_frames + 1 }

/-- One full physics step in source order: resolve and record input (with
impulse), scroll the map, spawn walls and obstacles, cull off-screen entries,
apply player physics, test collisions, and advance the physics-frame
counter. -/
def physicsStep (g : GameField) (mouse : Bool) : GameField :=
  advanceFrame (collidePhase (physPhase (cullPhase (spawnPhase (scrollPhase (inputPhase g mouse))))))

/-- One render-loop visit to the physics gate (source: the
`if !self.dead && time - self.last_frame >= 1. / 60.` guard): the physics
step runs only when the field is not dead and the 60 Hz wall-clock gate
(abstracted as `timeOk`) is open; otherwise the physics state is untouched. -/
def tick (g : GameField) (mouse timeOk : Bool) : GameField :=
  if !g.dead && timeOk then physicsStep g mouse else g

/-- Iterated game loop over a list of `(mouse, timeOk)` observations. -/
def run (g : GameField) (evs : List (Bool × Bool)) : GameField :=
  evs.foldl (fun s e => tick s e.1 e.2) g

/-- Per-step observation trace of a field driven by a list of per-step input
bits (each entry one executed render visit with the time gate open): player Y,
player speed, wall list, obstacle list and the dead flag after each step. Two
equal traces have in particular the same dead-frame index, the position of the
first `true` dead flag. -/
def trajectory (g : GameField) (ms : List Bool) :
    List (Int × Int × List Obstacle × List Obstacle × Bool) :=
  match ms with
  | [] => []
  | m :: rest =>
    let g2 := tick g m true
    (g2.player_y, g2.player_speed, g2.walls, g2.obstacles, g2.dead) :: trajectory g2 rest

/-! Helper lemmas: projections of each phase, bounds on `wrap16`, and the
arithmetic shape of `gapFor`. -/

theorem wrap16_bounds (x : Int) : -32768 ≤ wrap16 x ∧ wrap16 x ≤ 32767 := by
  unfold wrap16
  omega

theorem wrap16_eq_self (x : Int) (h1 : -32768 ≤ x) (h2 : x ≤ 32767) : wrap16 x = x := by
  unfold wrap16
  omega

theorem gapFor_eq (pf : Nat) : gapFor pf = 8000 - 32 * ((min (pf / 32) 70 : Nat) : Int) := by
  unfold gapFor fxptFromI16 FIXED_POINT_DIVISOR wrap16
  generalize h : min (pf / 32) 70 = k
  have hk : k ≤ 70 := h ▸ Nat.min_le_right _ _
  omega

@[simp]
theorem inputPhase_player_speed (g : GameField) (m : Bool) :
    (inputPhase g m).player_speed
      = g.player_speed - (if resolvedFlying g m then INPUT_IMPULSE else 0) := by
  unfold inputPhase
  split <;> simp_all

@[simp]
theorem inputPhase_inputs (g : GameField) (m : Bool) :
    (inputPhase g m).inputs = g.inputs ++ [if resolvedFlying g m then 49 else 48] := by
  unfold inputPhase
  split <;> simp_all

@[simp]
theorem inputPhase_replay (g : GameField) (m : Bool) :
    (inputPhase g m).replay = g.replay.map List.tail := by
  unfold inputPhase
  split <;> rfl

@[simp]
theorem inputPhase_player_y (g : GameField) (m : Bool) :
    (inputPhase g m).player_y = g.player_y := by
  unfold inputPhase
  split <;> rfl

@[simp]
theorem inputPhase_walls (g : GameField) (m : Bool) :
    (inputPhase g m).walls = g.walls := by
  unfold inputPhase
  split <;> rfl

@[simp]
theorem inputPhase_obstacles (g : GameField) (m : Bool) :
    (inputPhase g m).obstacles = g.obstacles := by
  unfold inputPhase
  split <;> rfl

@[simp]
theorem inputPhase_dead (g : GameField) (m : Bool) :
    (inputPhase g m).dead = g.dead := by
  unfold inputPhase
  split <;> rfl

@[simp]
theorem inputPhase_physics_frames (g : GameField) (m : Bool) :
    (inputPhase g m).physics_frames = g.physics_frames := by
  unfold inputPhase
  split <;> rfl

@[simp]
theorem scrollPhase_player_speed (g : GameField) :
    (scrollPhase g).player_speed = g.player_speed := rfl

@[simp]
theorem scrollPhase_player_y (g : GameField) :
    (scrollPhase g).player_y = g.player_y := rfl

@[simp]
theorem scrollPhase_dead (g : GameField) : (scrollPhase g).dead = g.dead := rfl

@[simp]
theorem scrollPhase_inputs (g : GameField) : (scrollPhase g).inputs = g.inputs := rfl

@[simp]
theorem scrollPhase_replay (g : GameField) : (scrollPhase g).replay = g.replay := rfl

@[simp]
theorem scrollPhase_physics_frames (g : GameField) :
    (scrollPhase g).physics_frames = g.physics_frames := rfl

@[simp]
theorem spawnPhase_player_speed (g : GameField) :
    (spawnPhase g).player_speed = g.player_speed := by
  unfold spawnPhase
  split
  · split <;> rfl
  · rfl

@[simp]
theorem spawnPhase_player_y (g : GameField) :
    (spawnPhase g).player_y = g.player_y := by
  unfold spawnPhase
  split
  · split <;> rfl
  · rfl

@[simp]
theorem spawnPhase_dead (g : GameField) : (spawnPhase g).dead = g.dead := by
  unfold spawnPhase
  split
  · split <;> rfl
  · rfl

@[simp]
theorem spawnPhase_inputs (g : GameField) : (spawnPhase g).inputs = g.inputs := by
  unfold spawnPhase
  split
  · split <;> rfl
  · rfl

@[simp]
theorem spawnPhase_replay (g : GameField) : (spawnPhase g).replay = g.replay := by
  unfold spawnPhase
  split
  · split <;> rfl
  · rfl

@[simp]
theorem spawnPhase_physics_frames (g : GameField) :
    (spawnPhase g).physics_frames = g.physics_frames := by
  unfold spawnPhase
  split
  · split <;> rfl
  · rfl

@[simp]
theorem cullPhase_walls (g : GameField) :
    (cullPhase g).walls = g.walls.filter (fun o => decide (0 < o.x + o.width)) := rfl

@[simp]
theorem cullPhase_obstacles (g : GameField) :
    (cullPhase g).obstacles = g.obstacles.filter (fun o => decide (0 < o.x + o.width)) := rfl

@[simp]
theorem cullPhase_player_speed (g : GameField) :
    (cullPhase g).player_speed = g.player_speed := rfl

@[simp]
theorem cullPhase_player_y (g : GameField) : (cullPhase g).player_y = g.player_y := rfl

@[simp]
theorem cullPhase_dead (g : GameField) : (cullPhase g).dead = g.dead := rfl

@[simp]
theorem cullPhase_inputs (g : GameField) : (cullPhase g).inputs = g.inputs := rfl

@[simp]
theorem cullPhase_replay (g : GameField) : (cullPhase g).replay = g.replay := rfl

@[simp]
theorem cullPhase_physics_frames (g : GameField) :
    (cullPhase g).physics_frames = g.physics_frames := rfl

@[simp]
theorem physPhase_player_speed (g : GameField) :
    (physPhase g).player_speed
      = Int.fdiv (g.player_speed + GRAVITY) (2 ^ FIXED_POINT_SHIFT) * FRICTION := rfl

@[simp]
theorem physPhase_player_y (g : GameField) :
    (physPhase g).player_y
      = clampI (g.player_y + Int.fdiv (g.player_speed + GRAVITY) (2 ^ FIXED_POINT_SHIFT) * FRICTION)
          0 (GAME_FIELD_HEIGHT - PLAYER_SIZE) := rfl

@[simp]
theorem physPhase_walls (g : GameField) : (physPhase g).walls = g.walls := rfl

@[simp]
theorem physPhase_obstacles (g : GameField) : (physPhase g).obstacles = g.obstacles := rfl

@[simp]
theorem physPhase_dead (g : GameField) : (physPhase g).dead = g.dead := rfl

@[simp]
theorem physPhase_inputs (g : GameField) : (physPhase g).inputs = g.inputs := rfl

@[simp]
theorem physPhase_replay (g : GameField) : (physPhase g).replay = g.replay := rfl

@[simp]
theorem physPhase_physics_frames (g : GameField) :
    (physPhase g).physics_frames = g.physics_frames := rfl

@[simp]
theorem collidePhase_dead (g : GameField) :
    (collidePhase g).dead
      = (g.dead || (g.obstacles ++ g.walls).any (fun o => collides o g.player_y)) := rfl

@[simp]
theorem collidePhase_player_speed (g : GameField) :
    (collidePhase g).player_speed = g.player_speed := rfl

@[simp]
theorem collidePhase_player_y (g : GameField) :
    (collidePhase g).player_y = g.player_y := rfl

@[simp]
theorem collidePhase_walls (g : GameField) : (collidePhase g).walls = g.walls := rfl

@[simp]
theorem collidePhase_obstacles (g : GameField) :
    (collidePhase g).obstacles = g.obstacles := rfl

@[simp]
theorem collidePhase_inputs (g : GameField) : (collidePhase g).inputs = g.inputs := rfl

@[simp]
theorem collidePhase_replay (g : GameField) : (collidePhase g).replay = g.replay := rfl

@[simp]
theorem collidePhase_physics_frames (g : GameField) :
    (collidePhase g).physics_frames = g.physics_frames := rfl

@[simp]
theorem advanceFrame_physics_frames (g : GameField) :
    (advanceFrame g).physics_frames = g.physics_frames + 1 := rfl

@[simp]
theorem advanceFrame_player_speed (g : GameField) :
    (advanceFrame g).player_speed = g.player_speed := rfl

@[simp]
theorem advanceFrame_player_y (g : GameField) :
    (advanceFrame g).player_y = g.player_y := rfl

@[simp]
theorem advanceFrame_walls (g : GameField) : (advanceFrame g).walls = g.walls := rfl

@[simp]
theorem advanceFrame_obstacles (g : GameField) :
    (advanceFrame g).obstacles = g.obstacles := rfl

@[simp]
theorem advanceFrame_dead (g : GameField) : (advanceFrame g).dead = g.dead := rfl

@[simp]
theorem advanceFrame_inputs (g : GameField) : (advanceFrame g).inputs = g.inputs := rfl

@[simp]
theorem advanceFrame_replay (g : GameField) : (advanceFrame g).replay = g.replay := rfl

theorem physicsStep_player_speed (g : GameField) (m : Bool) :
    (physicsStep g m).player_speed
      = Int.fdiv (g.player_speed - (if resolvedFlying g m then INPUT_IMPULSE else 0) + GRAVITY)
          (2 ^ FIXED_POINT_SHIFT) * FRICTION := by
  simp [physicsStep]

theorem physicsStep_physics_frames (g : GameField) (m : Bool) :
    (physicsStep g m).physics_frames = g.physics_frames + 1 := by
  simp [physicsStep]

theorem physicsStep_inputs (g : GameField) (m : Bool) :
    (physicsStep g m).inputs = g.inputs ++ [if resolvedFlying g m then 49 else 48] := by
  simp [physicsStep]

theorem physicsStep_replay (g : GameField) (m : Bool) :
    (physicsStep g m).replay = g.replay.map List.tail := by
  simp [physicsStep]

theorem physicsStep_walls (g : GameField) (m : Bool) :
    (physicsStep g m).walls
      = ((spawnPhase (scrollPhase (inputPhase g m))).walls).filter
          (fun o => decide (0 < o.x + o.width)) := by
  simp [physicsStep]

theorem physicsStep_obstacles (g : GameField) (m : Bool) :
    (physicsStep g m).obstacles
      = ((spawnPhase (scrollPhase (inputPhase g m))).obstacles).filter
          (fun o => decide (0 < o.x + o.width)) := by
  simp [physicsStep]

theorem physicsStep_dead_eq (g : GameField) (m : Bool) :
    (physicsStep g m).dead
      = (g.dead || ((physicsStep g m).obstacles ++ (physicsStep g m).walls).any
          (fun o => collides o (physicsStep g m).player_y)) := by
  simp [physicsStep]

theorem tick_dead_id (g : GameField) (m t : Bool) (h : g.dead = true) : tick g m t = g := by
  simp [tick, h]

theorem run_cons (g : GameField) (e : Bool × Bool) (evs : List (Bool × Bool)) :
    run g (e :: evs) = run (tick g e.1 e.2) evs := rfl

theorem run_dead_id (evs : List (Bool × Bool)) (g : GameField) (h : g.dead = true) :
    run g evs = g := by
  induction evs generalizing g with
  | nil => rfl
  | cons e evs ih =>
    rw [run_cons, tick_dead_id g e.1 e.2 h]
    exact ih g h

theorem tick_inputs_len (g : GameField) (m t : Bool)
    (h : g.inputs.length = g.physics_frames) :
    (tick g m t).inputs.length = (tick g m t).physics_frames := by
  cases hd : g.dead <;> cases t <;>
    simp [tick, hd, physicsStep_inputs, physicsStep_physics_frames, h]

theorem run_inputs_len (evs : List (Bool × Bool)) (g : GameField)
    (h : g.inputs.length = g.physics_frames) :
    (run g evs).inputs.length = (run g evs).physics_frames := by
  induction evs generalizing g with
  | nil => exact h
  | cons e evs ih =>
    rw [run_cons]
    exact ih _ (tick_inputs_len g e.1 e.2 h)

/-! Claim theorems. -/

/-- C1: Determinism - two game fields independently constructed by
`GameField.new` (which always seeds the RNG with the fixed constant
`0x1337133713371337` and depends on no ambient data), given the same replay
attachment and stepped through the same sequence of per-physics-step input
bits, produce bit-identical trajectories of
`(player_y, player_speed, walls, obstacles, dead)` - in particular the same
frame index at which `dead` is first set. -/
theorem trajectory_deterministic (r : Option (List Nat)) (ms : List Bool)
    (g1 g2 : GameField) (h1 : g1 = withReplay r GameField.new)
    (h2 : g2 = withReplay r GameField.new) :
    trajectory g1 ms = trajectory g2 ms := by
  subst h1
  subst h2
  rfl

theorem trajectory_deterministic_witness :
    trajectory (withReplay (some [49, 48]) GameField.new) [true, false]
      = trajectory (withReplay (some [49, 48]) GameField.new) [true, false] :=
  trajectory_deterministic (some [49, 48]) [true, false] _ _ rfl rfl

/-- C2: Per-physics-step player update - with `f` the resolved input bit, the
new speed is `((old_speed - INPUT_IMPULSE * [f] + GRAVITY) >> FIXED_POINT_SHIFT)
* FRICTION` (impulse, then gravity, then shift-then-multiply friction, in that
order), and the new Y is the old Y plus the new speed clamped to
`[0, GAME_FIELD_HEIGHT - PLAYER_SIZE]`. -/
theorem physicsStep_player_update (g : GameField) (m : Bool) :
    (physicsStep g m).player_speed
      = Int.fdiv (g.player_speed - (if resolvedFlying g m then INPUT_IMPULSE else 0) + GRAVITY)
          (2 ^ FIXED_POINT_SHIFT) * FRICTION
    ∧ (physicsStep g m).player_y
      = clampI (g.player_y + (physicsStep g m).player_speed)
          0 (GAME_FIELD_HEIGHT - PLAYER_SIZE) := by
  constructor
  · simp [physicsStep]
  · simp [physicsStep]

/-- C3 counterexample: constructing an `Fxpt` from the plain integer 2000
overflows the backing `i16` (2000 * 32 = 64000 > 32767); the source
construction does not fail - it produces the wrapped value -1536 - whereas
the claimed checked construction would reject the input. -/
theorem fxptFromI16_unchecked_cex :
    fxptFromI16 2000 = -1536
    ∧ fxptFromI16 2000 ≠ 2000 * FIXED_POINT_DIVISOR
    ∧ fxptFromI16Checked 2000 = none := by
  decide

/-- C3 (amended): construction of an `Fxpt` from a plain integer scales it by
the fixed-point divisor with an unchecked `i16` multiplication; when the
scaled value fits the 16-bit width the exact product is produced, and when it
would overflow the construction does not fail as a recoverable error but
produces the value wrapped to 16 bits (differing from the exact scaled value);
the spec-modelled checked construction rejects exactly those overflowing
inputs. -/
theorem fxptFromI16_wraps (v : Int) (h1 : -32768 ≤ v) (h2 : v ≤ 32767) :
    fxptFromI16 v = wrap16 (v * FIXED_POINT_DIVISOR)
    ∧ (-1024 ≤ v ∧ v ≤ 1023 → fxptFromI16 v = v * FIXED_POINT_DIVISOR)
    ∧ ((v < -1024 ∨ 1023 < v) →
        fxptFromI16 v ≠ v * FIXED_POINT_DIVISOR ∧ fxptFromI16Checked v = none) := by
  refine ⟨rfl, ?_, ?_⟩
  · rintro ⟨ha, hb⟩
    unfold fxptFromI16 FIXED_POINT_DIVISOR wrap16
    omega
  · intro hc
    constructor
    · unfold fxptFromI16 FIXED_POINT_DIVISOR wrap16
      omega
    · unfold fxptFromI16Checked FIXED_POINT_DIVISOR
      exact if_neg (by omega)

theorem fxptFromI16_wraps_witness :
    fxptFromI16 (-2000) ≠ -2000 * FIXED_POINT_DIVISOR
    ∧ fxptFromI16Checked (-2000) = none :=
  (fxptFromI16_wraps (-2000) (by decide) (by decide)).2.2 (Or.inl (by decide))

/-- C4 counterexample: on the very first physics step there are no walls, the
claim's sentinel (the field's right edge) does not satisfy the claimed
trigger, yet the source spawns a wall pair. -/
theorem spawn_trigger_cex :
    GameField.new.walls = []
    ∧ ¬ lastXClaim GameField.new.walls ≤ GAME_FIELD_WIDTH - OBSTACLE_WIDTH
    ∧ (physicsStep GameField.new false).walls.length = 2 := by
  decide

/-- C4 (amended): on a physics step a new wall pair is spawned exactly when
the rightmost existing wall's X after the scroll - or, when no walls exist,
the sentinel `GAME_FIELD_WIDTH - OBSTACLE_WIDTH` (the right edge minus the
wall thickness, not the right edge itself) - is at or left of the field's
right edge minus the wall thickness; the new pair is placed at that X plus
the wall thickness. -/
theorem spawnPhase_trigger (g : GameField) :
    (lastXOf g.walls ≤ GAME_FIELD_WIDTH - OBSTACLE_WIDTH →
      (spawnPhase g).walls = g.walls ++ [wallTopOf g, wallBotOf g]
      ∧ (wallTopOf g).x = lastXOf g.walls + OBSTACLE_WIDTH
      ∧ (wallBotOf g).x = lastXOf g.walls + OBSTACLE_WIDTH)
    ∧ (¬ lastXOf g.walls ≤ GAME_FIELD_WIDTH - OBSTACLE_WIDTH →
        (spawnPhase g).walls = g.walls) := by
  constructor
  · intro h
    refine ⟨?_, rfl, rfl⟩
    unfold spawnPhase
    rw [if_pos h]
    split <;> rfl
  · intro h
    unfold spawnPhase
    rw [if_neg h]

theorem spawnPhase_trigger_witness :
    (spawnPhase GameField.new).walls
      = GameField.new.walls ++ [wallTopOf GameField.new, wallBotOf GameField.new]
    ∧ (wallTopOf GameField.new).x = lastXOf GameField.new.walls + OBSTACLE_WIDTH
    ∧ (wallBotOf GameField.new).x = lastXOf GameField.new.walls + OBSTACLE_WIDTH :=
  (spawnPhase_trigger GameField.new).1 (by decide)

/-- C5: Gap monotonicity - the gap height used for a spawn is a non-increasing
function of the physics-frame count: it equals the 250-unit maximum minus one
unit (32 scaled) per difficulty tick (`physics_frames / 32`, capped at 70
ticks), starts at `Fxpt::from(250)` and is the constant 180-unit minimum once
the tick count reaches the cap. -/
theorem gapFor_monotone (p q : Nat) (h : p ≤ q) :
    gapFor q ≤ gapFor p
    ∧ gapFor p = fxptFromI16 250 - 32 * ((min (p / 32) 70 : Nat) : Int)
    ∧ gapFor 0 = fxptFromI16 250
    ∧ (70 ≤ p / 32 → gapFor p = fxptFromI16 180) := by
  have hp := gapFor_eq p
  have hq := gapFor_eq q
  have hd : p / 32 ≤ q / 32 := Nat.div_le_div_right h
  have h250 : fxptFromI16 250 = 8000 := by decide
  have h180 : fxptFromI16 180 = 5760 := by decide
  have h0 : gapFor 0 = 8000 := by decide
  refine ⟨?_, ?_, ?_, ?_⟩
  · have hmin : min (p / 32) 70 ≤ min (q / 32) 70 := by omega
    omega
  · omega
  · omega
  · intro h70
    have hmin : min (p / 32) 70 = 70 := by omega
    omega

theorem gapFor_monotone_witness :
    gapFor 3000 ≤ gapFor 2240 ∧ gapFor 2240 = fxptFromI16 180 := by
  have h := gapFor_monotone 2240 3000 (by decide)
  exact ⟨h.1, h.2.2.2 (by decide)⟩

/-- C6: Culling invariant - after any physics step every remaining wall and
obstacle satisfies `x + width > 0` (so nothing cullable survives the step in
which it became cullable), and the `dead` flag produced by the step is
computed from exactly the post-cull collections (the step order being input,
scroll, spawn, cull, player physics, collide). -/
theorem cull_invariant (g : GameField) (m : Bool) :
    (∀ o ∈ (physicsStep g m).walls, 0 < o.x + o.width)
    ∧ (∀ o ∈ (physicsStep g m).obstacles, 0 < o.x + o.width)
    ∧ (physicsStep g m).dead
        = (g.dead || ((physicsStep g m).obstacles ++ (physicsStep g m).walls).any
            (fun o => collides o (physicsStep g m).player_y)) := by
  refine ⟨?_, ?_, physicsStep_dead_eq g m⟩
  · intro o ho
    rw [physicsStep_walls] at ho
    exact of_decide_eq_true (List.mem_filter.mp ho).2
  · intro o ho
    rw [physicsStep_obstacles] at ho
    exact of_decide_eq_true (List.mem_filter.mp ho).2

theorem cull_invariant_witness :
    (0 : Int) < (⟨12800, 0, 800, 855⟩ : Obstacle).x + (⟨12800, 0, 800, 855⟩ : Obstacle).width :=
  (cull_invariant GameField.new false).1 ⟨12800, 0, 800, 855⟩ (by decide)

/-- C7: Collision strictness - the overlap test is strict on each axis, so a
rectangle whose right edge coincides with the player's left edge never
collides; overlap of at least one unit on both axes always collides; and an
obstacle of the step's (post-cull) collection that overlaps the player at the
step's final Y forces the `dead` flag of that step. -/
theorem collision_strictness (o : Obstacle) (py : Int) (g : GameField) (m : Bool) :
    (o.x + o.width = PLAYER_X → collides o py = false)
    ∧ (max o.x PLAYER_X + 1 ≤ min (o.x + o.width) (PLAYER_X + PLAYER_SIZE) →
        max o.y py + 1 ≤ min (o.y + o.height) (py + PLAYER_SIZE) →
        collides o py = true)
    ∧ (o ∈ (physicsStep g m).obstacles → collides o (physicsStep g m).player_y = true →
        (physicsStep g m).dead = true) := by
  refine ⟨?_, ?_, ?_⟩
  · intro h
    have hle : min (o.x + o.width) (PLAYER_X + PLAYER_SIZE) ≤ max o.x PLAYER_X :=
      le_trans (by rw [h]; exact min_le_left _ _) (le_max_right _ _)
    simp [collides, not_lt.mpr hle]
  · intro hx hy
    simp only [collides, Bool.and_eq_true, decide_eq_true_eq]
    exact ⟨Int.lt_iff_add_one_le.mpr hx, Int.lt_iff_add_one_le.mpr hy⟩
  · intro ho hc
    rw [physicsStep_dead_eq]
    have hany : ((physicsStep g m).obstacles ++ (physicsStep g m).walls).any
        (fun o2 => collides o2 (physicsStep g m).player_y) = true := by
      rw [List.any_eq_true]
      exact ⟨o, List.mem_append_left _ ho, hc⟩
    rw [hany, Bool.or_true]

theorem collision_strictness_witness :
    collides ⟨2400, 0, 800, 9600⟩ 4800 = false :=
  (collision_strictness ⟨2400, 0, 800, 9600⟩ 4800 GameField.new false).1 (by decide)

/-- C8: Death halts physics - a dead field is left completely unchanged by
every further render visit (and by any number of them), and `physics_frames`
grows by exactly 1 on an executed physics step and not at all otherwise. -/
theorem dead_halts_physics (g : GameField) (m t : Bool) (evs : List (Bool × Bool)) :
    (g.dead = true → tick g m t = g)
    ∧ ((tick g m t).physics_frames
        = if g.dead = false ∧ t = true then g.physics_frames + 1 else g.physics_frames)
    ∧ (g.dead = true → run g evs = g) := by
  refine ⟨fun h => tick_dead_id g m t h, ?_, fun h => run_dead_id evs g h⟩
  cases hd : g.dead <;> cases t <;> simp [tick, hd, physicsStep_physics_frames]

theorem dead_halts_physics_witness :
    tick { GameField.new with dead := true } true true = { GameField.new with dead := true }
    ∧ run { GameField.new with dead := true } [(true, true), (false, true)]
        = { GameField.new with dead := true } :=
  ⟨(dead_halts_physics { GameField.new with dead := true } true true []).1 rfl,
   (dead_halts_physics { GameField.new with dead := true } true true
      [(true, true), (false, true)]).2.2 rfl⟩

/-- C9: Replay input resolution and recording - every physics step appends
exactly one byte (`'1' = 49` when flying, `'0' = 48` otherwise) to the input
log; with no replay attached the live input decides; with a replay attached
its front byte is popped and only the byte `'1'` flies (any other byte and an
exhausted queue resolve to not flying, never an error); and along any run from
a fresh field the log length equals the physics-frame count. -/
theorem replay_resolution_and_log (g : GameField) (m : Bool) (evs : List (Bool × Bool)) :
    (physicsStep g m).inputs = g.inputs ++ [if resolvedFlying g m then 49 else 48]
    ∧ (g.replay = none → resolvedFlying g m = m)
    ∧ (∀ b rest, g.replay = some (b :: rest) →
        (physicsStep g m).replay = some rest ∧ (resolvedFlying g m = true ↔ b = 49))
    ∧ (g.replay = some [] → resolvedFlying g m = false ∧ (physicsStep g m).replay = some [])
    ∧ (run GameField.new evs).inputs.length = (run GameField.new evs).physics_frames := by
  refine ⟨physicsStep_inputs g m, ?_, ?_, ?_, run_inputs_len evs GameField.new rfl⟩
  · intro hr
    simp [resolvedFlying, hr]
  · intro b rest hr
    constructor
    · rw [physicsStep_replay, hr]
      rfl
    · simp [resolvedFlying, hr]
  · intro hr
    constructor
    · simp [resolvedFlying, hr]
    · rw [physicsStep_replay, hr]
      rfl

theorem replay_resolution_and_log_witness :
    (physicsStep (withReplay (some [50, 49]) GameField.new) true).replay = some [49]
    ∧ resolvedFlying (withReplay (some [50, 49]) GameField.new) true = false := by
  have h := (replay_resolution_and_log (withReplay (some [50, 49]) GameField.new) true []).2.2.1
      50 [49] rfl
  refine ⟨h.1, ?_⟩
  cases hb : resolvedFlying (withReplay (some [50, 49]) GameField.new) true
  · rfl
  · exact absurd (h.2.mp hb) (by decide)

/-- C10: the `Fxpt` to `f32` conversion is total - for every backing `i16`
value the exact quotient by the divisor 32 is finite (far below the largest
finite binary32 value), so the non-finite panic branch is unreachable and the
conversion always returns the quotient. -/
theorem fxptToF32_total (v : Int) (h1 : -32768 ≤ v) (h2 : v ≤ 32767) :
    fxptToF32 v = some ((v : ℚ) / (FIXED_POINT_DIVISOR : ℚ)) := by
  have hv : |(v : ℚ)| ≤ 32768 := by
    rw [abs_le]
    constructor
    · exact_mod_cast h1
    · exact_mod_cast le_trans h2 (by norm_num)
  have h32 : (FIXED_POINT_DIVISOR : ℚ) = 32 := by norm_num [FIXED_POINT_DIVISOR]
  have hb : |(v : ℚ) / (FIXED_POINT_DIVISOR : ℚ)| ≤ F32_MAX_FINITE := by
    rw [h32, abs_div]
    calc |(v : ℚ)| / |32| ≤ 32768 / |32| := by gcongr
      _ ≤ F32_MAX_FINITE := by norm_num [F32_MAX_FINITE]
  simp only [fxptToF32]
  rw [if_pos hb]

theorem fxptToF32_total_witness :
    fxptToF32 (-32768) = some (((-32768 : Int) : ℚ) / (FIXED_POINT_DIVISOR : ℚ)) :=
  fxptToF32_total (-32768) (by norm_num) (by norm_num)
